import Mathlib

/-!
# Verification of the url2mda orchestrator against its specification

This file gives a shallow embedding, in Lean 4, of the behaviourally relevant
parts of the url2mda Cloudflare Worker / Durable Object:

* the idle-lifecycle alarm state machine (`Browser.alarm`, `Browser.fetch`
  finally-block, `ensureAlarmIsSet`);
* the browser resource manager (`ensureBrowser`);
* the URL router and per-URL orchestrator (`getWebsiteMarkdown`), including
  the default-page cache-aside path and the `nocache` URL rewrite;
* the crawl text aggregator (`crawlSubpages`, text branch);
* the metadata synthesizer (`convertToMagiFormat`: reading time and the
  length-gated ai-script directive blocks);
* the Reddit forum-listing handler (`handleRedditURL`).

External collaborators (the KV store, the rendering engine, the rate limiter,
the network fetches, the platform URL API) are modelled as explicit oracles /
pure state, following the interfaces the source uses.  JavaScript string
operations (`includes`, `split`, `startsWith`, `trim`) are modelled by
executable Lean counterparts with the same behaviour on the inputs that occur;
JavaScript number arithmetic on word counts is modelled by exact natural
arithmetic (the counts involved are far below 2^52, where IEEE doubles are
exact).
-/

/-! ## JavaScript string primitives -/

/-- Core of JavaScript `String.prototype.split(sep)` for a non-empty string
separator, over character lists: non-overlapping left-to-right matches,
keeping empty boundary pieces.  `fuel` bounds the recursion structurally so
that the function evaluates inside the kernel; each step consumes at least one
character, so `l.length` fuel always suffices. -/
def splitGo (sep : List Char) : Nat → List Char → List Char → List (List Char)
  | _, [], acc => [acc.reverse]
  | 0, l, acc => [acc.reverse ++ l]
  | fuel + 1, c :: cs, acc =>
    if sep.isPrefixOf (c :: cs) then
      acc.reverse :: splitGo sep fuel ((c :: cs).drop sep.length) []
    else splitGo sep fuel cs (c :: acc)

/-- JavaScript `s.split(sep)` for string separators.  The empty separator is
never passed by the modelled code; it returns the string whole here. -/
def jsSplit (s sep : String) : List String :=
  if sep.data.isEmpty then [s]
  else (splitGo sep.data s.data.length s.data []).map String.mk

/-- JavaScript `s.startsWith(pre)`. -/
def jsStartsWith (s pre : String) : Bool :=
  pre.data.isPrefixOf s.data

/-- JavaScript `s.includes(sub)`: `sub` occurs as a contiguous substring of
`s`.  For a non-empty needle, `s.split(sub)` has more than one piece exactly
when `sub` occurs in `s`; the empty needle always occurs. -/
def jsIncludes (s sub : String) : Bool :=
  if sub = "" then true else (jsSplit s sub).length != 1

mutual

/-- JavaScript `String.prototype.split(/\s+/)` on the character list of the
string: pieces between maximal whitespace runs, keeping the empty boundary
pieces that JavaScript produces when the string starts or ends with
whitespace.  `wsTok` is the state in which a (possibly empty) token is being
accumulated; `wsSep` is the state inside a whitespace run. -/
def wsTok : List Char → List Char → List (List Char)
  | [], acc => [acc.reverse]
  | c :: cs, acc =>
    if c.isWhitespace then acc.reverse :: wsSep cs else wsTok cs (c :: acc)

/-- Second state of the whitespace splitter: consuming a whitespace run. -/
def wsSep : List Char → List (List Char)
  | [] => [[]]
  | c :: cs => if c.isWhitespace then wsSep cs else wsTok cs [c]

end

/-- Computes `markdown.split(/\s+/).length` from `convertToMagiFormat`. -/
def wordCountJs (markdown : String) : Nat :=
  (wsTok markdown.data []).length

/-! ## Metadata synthesizer (`convertToMagiFormat`, src/magi-util/convert-magi.ts) -/

/-- Computes `Math.max(1, Math.round(wordCount / 200))` from `convertToMagiFormat`.
JavaScript `Math.round` is floor(x + 1/2); on the exact rational
`wordCount/200` this is `(wordCount + 100) / 200` in natural division. -/
def readingTimeMinutes (markdown : String) : Nat :=
  max 1 ((wordCountJs markdown + 100) / 200)

/-- The reading time the specification sentence describes:
`ceil(wordCount/200)` with a floor of 1 (stated for comparison with the
implementation; `ceil(w/200) = (w + 199) / 200` in natural division). -/
def specReadingTimeMinutes (markdown : String) : Nat :=
  max 1 ((wordCountJs markdown + 199) / 200)

/-- The summarization ai-script block appended by `convertToMagiFormat` when
`markdown.length > 1000`; `ts` is the `Date.now()` timestamp interpolated into
the script id. -/
def summaryScript (ts : Nat) : String :=
  "\n<!-- AI-PROCESSOR: Content blocks marked with ```ai-script are instructions for AI systems -->\n```ai-script\n\x7b\n  \"script-id\": \"doc-summary-" ++
    toString ts ++
    "\",\n  \"prompt\": \"Provide a concise summary of the main points covered in this document. Focus on the key information, main arguments, and important conclusions.\",\n  \"auto-run\": true,\n  \"priority\": \"medium\",\n  \"output-format\": \"markdown\"\n\x7d\n```"

/-- The entity-extraction ai-script block appended by `convertToMagiFormat`
when `markdown.length > 3000`. -/
def entityScript (ts : Nat) : String :=
  "\n<!-- AI-PROCESSOR: Entity extraction for long documents -->\n```ai-script\n\x7b\n  \"script-id\": \"entity-extract-" ++
    toString ts ++
    "\",\n  \"prompt\": \"Extract the key entities (people, organizations, technologies, concepts) mentioned in this document and provide a brief explanation of their significance in the context of this content.\",\n  \"auto-run\": false,\n  \"interactive-type\": \"button\",\n  \"interactive-label\": \"Extract Key Entities\",\n  \"priority\": \"low\",\n  \"output-format\": \"markdown\"\n\x7d\n```"

/-- The list of directive blocks `convertToMagiFormat` appends after the body,
in order; the entity script is appended preceded by a newline, which is kept
with it here.  Mirrors the nested `if (markdown.length > 1000) ... if
(markdown.length > 3000)` structure of the source. -/
def appendedScripts (ts : Nat) (markdown : String) : List String :=
  if markdown.length > 1000 then
    [summaryScript ts] ++ (if markdown.length > 3000 then ["\n" ++ entityScript ts] else [])
  else []

/-- Plain concatenation of a list of strings. -/
def strJoin : List String → String
  | [] => ""
  | s :: rest => s ++ strJoin rest

/-- Tail of `convertToMagiFormat`: starting from `magiBase` (the YAML
frontmatter followed by the markdown body), append the summarization script
when the body is longer than 1000 characters and additionally the
entity-extraction script (preceded by a newline) when it is longer than 3000
characters. -/
def convertWithDirectives (ts : Nat) (magiBase markdown : String) : String :=
  if markdown.length > 1000 then
    let d := magiBase ++ summaryScript ts
    if markdown.length > 3000 then d ++ ("\n" ++ entityScript ts) else d
  else magiBase

/-! ## Claims C8 and C9: reading time and directive blocks -/

set_option maxRecDepth 40000

/-- A concrete markdown body of exactly 201 whitespace-separated words. -/
def body201Words : String := String.intercalate " " (List.replicate 201 "w")

/-- C8 counterexample: on a body of 201 words the code computes
`Math.max(1, Math.round(201/200)) = 1`, while the claimed formula
`max(1, ceil(201/200))` gives 2. -/
theorem claim_C8_counterexample :
    readingTimeMinutes body201Words = 1 ∧
    specReadingTimeMinutes body201Words = 2 ∧
    readingTimeMinutes body201Words ≠ specReadingTimeMinutes body201Words := by
  refine ⟨by decide, by decide, by decide⟩

/-- C8 (amended): for every markdown body, the reading-time field equals
`wordCount/200` rounded half-up (not up), with a floor of 1, where `wordCount`
is the length of the JavaScript whitespace-split of the body (which counts an
empty boundary piece when the body starts or ends with whitespace). -/
theorem claim_C8_amended (markdown : String) :
    readingTimeMinutes markdown =
      max 1 (if 100 ≤ wordCountJs markdown % 200
             then wordCountJs markdown / 200 + 1
             else wordCountJs markdown / 200) := by
  unfold readingTimeMinutes
  congr 1
  by_cases h : 100 ≤ wordCountJs markdown % 200
  · rw [if_pos h]
    omega
  · rw [if_neg h]
    omega

/-- Joining a single string yields that string. -/
theorem strJoin_single (s : String) : strJoin [s] = s := by
  show s ++ "" = s
  exact String.append_empty s

/-- C9: directive blocks are appended after the body exactly as gated by body
length: none for a body of at most 1000 characters, exactly the summarization
block for a body of more than 1000 and at most 3000 characters, and the
summarization block followed by the entity-extraction block for a body of more
than 3000 characters; the output is always the base document followed by the
concatenation of the appended blocks. -/
theorem claim_C9 (ts : Nat) (magiBase markdown : String) :
    (markdown.length ≤ 1000 →
       convertWithDirectives ts magiBase markdown = magiBase ∧
       appendedScripts ts markdown = []) ∧
    (1000 < markdown.length → markdown.length ≤ 3000 →
       convertWithDirectives ts magiBase markdown = magiBase ++ summaryScript ts ∧
       (appendedScripts ts markdown).length = 1) ∧
    (3000 < markdown.length →
       convertWithDirectives ts magiBase markdown =
         magiBase ++ summaryScript ts ++ ("\n" ++ entityScript ts) ∧
       (appendedScripts ts markdown).length = 2) ∧
    convertWithDirectives ts magiBase markdown =
      magiBase ++ strJoin (appendedScripts ts markdown) := by
  unfold convertWithDirectives appendedScripts
  refine ⟨fun h1 => ?_, fun h1 h2 => ?_, fun h3 => ?_, ?_⟩
  · rw [if_neg (by omega)]
    rw [if_neg (by omega)]
    exact ⟨rfl, rfl⟩
  · rw [if_pos (by omega), if_neg (by omega), if_pos (by omega), if_neg (by omega)]
    exact ⟨rfl, rfl⟩
  · rw [if_pos (by omega), if_pos (by omega), if_pos (by omega), if_pos (by omega)]
    exact ⟨rfl, rfl⟩
  · by_cases h1 : markdown.length > 1000
    · by_cases h3 : markdown.length > 3000
      · rw [if_pos h1, if_pos h3, if_pos h1, if_pos h3]
        show (magiBase ++ summaryScript ts) ++ ("\n" ++ entityScript ts) =
          magiBase ++ (summaryScript ts ++ ("\n" ++ entityScript ts ++ ""))
        rw [String.append_empty, String.append_assoc]
      · rw [if_pos h1, if_neg h3, if_pos h1, if_neg h3]
        rw [List.append_nil, strJoin_single]
    · rw [if_neg h1, if_neg h1]
      show magiBase = magiBase ++ ""
      rw [String.append_empty]

/-- A concrete 1200-character body. -/
def body1200 : String := String.mk (List.replicate 1200 'a')

/-- A concrete 3500-character body. -/
def body3500 : String := String.mk (List.replicate 3500 'a')

/-- Witness for C9: a 1200-character body yields exactly one appended
directive block, a 3500-character body exactly two. -/
theorem claim_C9_witness :
    (1000 < body1200.length ∧ body1200.length ≤ 3000 ∧
      convertWithDirectives 0 "" body1200 = "" ++ summaryScript 0 ∧
      (appendedScripts 0 body1200).length = 1) ∧
    (3000 < body3500.length ∧
      convertWithDirectives 0 "" body3500 = "" ++ summaryScript 0 ++ ("\n" ++ entityScript 0) ∧
      (appendedScripts 0 body3500).length = 2) := by
  have hA : body1200.length = 1200 := by
    show (List.replicate 1200 'a').length = 1200
    exact List.length_replicate 1200 'a'
  have hBlen : body3500.length = 3500 := by
    show (List.replicate 3500 'a').length = 3500
    exact List.length_replicate 3500 'a'
  have hA1 : 1000 < body1200.length := by omega
  have hA2 : body1200.length ≤ 3000 := by omega
  have hB : 3000 < body3500.length := by omega
  have wA := (claim_C9 0 "" body1200).2.1 hA1 hA2
  have wB := (claim_C9 0 "" body3500).2.2.1 hB
  exact ⟨⟨hA1, hA2, wA.1, wA.2⟩, ⟨hB, wB.1, wB.2⟩⟩

/-! ## Idle lifecycle controller (`Browser.alarm`, `Browser.fetch` finally
block and `ensureAlarmIsSet`, src/index.ts)

The Durable Object keeps an in-memory counter `keptAliveInSeconds`, a
persisted copy of it under the storage key "keptAliveInSeconds"
(`storedKeptAlive` here), a scheduled-alarm flag and the browser handle.
`browserCloseCount` is a ghost counter of `browser.close()` calls. -/

structure DOState where
  keptAliveInSeconds : Nat
  storedKeptAlive : Nat
  alarmSet : Bool
  browser : Bool
  browserCloseCount : Nat
deriving DecidableEq, Repr

/-- Body of `Browser.alarm()` (success path), parameterised by the keep-alive
threshold `t` (`KEEP_BROWSER_ALIVE_IN_SECONDS`): increment the counter by the
10-second tick; below the threshold re-arm the alarm, otherwise close the
browser (if present) and leave no alarm armed; in both branches persist the
updated counter with `storage.put`. -/
def alarmHandler (t : Nat) (s : DOState) : DOState :=
  let k := s.keptAliveInSeconds + 10
  if k < t then
    { s with keptAliveInSeconds := k, storedKeptAlive := k, alarmSet := true }
  else
    { keptAliveInSeconds := k
      storedKeptAlive := k
      alarmSet := false
      browser := false
      browserCloseCount := s.browserCloseCount + (if s.browser then 1 else 0) }

/-- One potential firing of the platform alarm: the handler runs only when an
alarm is actually scheduled; an unscheduled alarm never fires. -/
def alarmFire (t : Nat) (s : DOState) : DOState :=
  if s.alarmSet then alarmHandler t s else s

/-- The `finally` block of `Browser.fetch`: reset the in-memory counter to 0
(no storage write), then `ensureAlarmIsSet`: arm the alarm only if none is
scheduled. -/
def requestFinally (s : DOState) : DOState :=
  let s1 : DOState := { s with keptAliveInSeconds := 0 }
  if s1.alarmSet then s1 else { s1 with alarmSet := true }

/-- A state whose alarm is not scheduled is fixed by `alarmFire`. -/
theorem alarmFire_not_set (t : Nat) (s : DOState) (h : s.alarmSet = false) :
    alarmFire t s = s := by
  unfold alarmFire
  rw [h]
  simp

/-- Counter and persistence along a run of genuine alarm firings: if the alarm
is armed and every intermediate counter value stays below the threshold (so
each firing re-arms the alarm), then `n` firings add `10 * n` to the counter,
and for `n ≥ 1` the persisted copy equals the new counter value. -/
theorem alarmFire_run (t : Nat) : ∀ (n : Nat) (s : DOState),
    s.alarmSet = true →
    (∀ j : Nat, 1 ≤ j → j < n → s.keptAliveInSeconds + 10 * j < t) →
    ((alarmFire t)^[n] s).keptAliveInSeconds = s.keptAliveInSeconds + 10 * n ∧
    (1 ≤ n → ((alarmFire t)^[n] s).storedKeptAlive = s.keptAliveInSeconds + 10 * n) := by
  intro n
  induction n with
  | zero =>
    intro s hset _
    simp
  | succ m ih =>
    intro s hset hbound
    rw [Function.iterate_succ_apply]
    have hfire : alarmFire t s = alarmHandler t s := by
      unfold alarmFire
      rw [hset]
      simp
    rw [hfire]
    by_cases hlt : s.keptAliveInSeconds + 10 < t
    · have hs1 : alarmHandler t s =
          { s with keptAliveInSeconds := s.keptAliveInSeconds + 10,
                   storedKeptAlive := s.keptAliveInSeconds + 10,
                   alarmSet := true } := by
        unfold alarmHandler
        rw [if_pos hlt]
      rw [hs1]
      cases Nat.eq_zero_or_pos m with
      | inl hm0 =>
        subst hm0
        simp
      | inr hmpos =>
        have ihres := ih { s with keptAliveInSeconds := s.keptAliveInSeconds + 10,
                                  storedKeptAlive := s.keptAliveInSeconds + 10,
                                  alarmSet := true } rfl ?bound
        case bound =>
          intro j h1 h2
          simp
          have := hbound (j + 1) (by omega) (by omega)
          omega
        refine ⟨?_, fun _ => ?_⟩
        · rw [ihres.1]
          simp
          omega
        · rw [ihres.2 hmpos]
          simp
          omega
    · have hm0 : m = 0 := by
        by_contra hne
        have := hbound 1 (by omega) (by omega)
        omega
      subst hm0
      have hs2 : alarmHandler t s =
          { keptAliveInSeconds := s.keptAliveInSeconds + 10
            storedKeptAlive := s.keptAliveInSeconds + 10
            alarmSet := false
            browser := false
            browserCloseCount := s.browserCloseCount + (if s.browser then 1 else 0) } := by
        unfold alarmHandler
        rw [if_neg hlt]
      rw [hs2]
      simp

/-- C1 counterexample: the claim says the counter is written back to
persistent storage after every reset, but the request-path reset
(`this.keptAliveInSeconds = 0` in the `finally` block of `Browser.fetch`)
only updates the in-memory counter: starting from a state whose counter and
persisted copy are both 30, after the reset the in-memory counter is 0 while
the persisted copy is still 30. -/
theorem claim_C1_counterexample :
    (requestFinally (DOState.mk 30 30 true true 0)).keptAliveInSeconds = 0 ∧
    (requestFinally (DOState.mk 30 30 true true 0)).storedKeptAlive = 30 ∧
    (requestFinally (DOState.mk 30 30 true true 0)).storedKeptAlive ≠
      (requestFinally (DOState.mk 30 30 true true 0)).keptAliveInSeconds := by
  decide

/-- C1 (amended): absent inbound requests, each firing of the armed idle timer
increments the counter by the fixed 10-second tick, so N consecutive firings
(each below the threshold, hence re-armed) increase it by N×10 and persist the
new value to storage; while the incremented counter is below the keep-alive
threshold the timer is re-armed; once it reaches the threshold the browser
handle is closed exactly once and no further timer is armed (subsequent time
passes without any state change) until a new inbound request arrives; that
request resets the in-memory counter to 0 and re-arms the timer, but it does
NOT write the reset value to persistent storage — the persisted copy is
updated only by timer firings. -/
theorem claim_C1_amended (t : Nat) (s : DOState) (n : Nat) :
    (s.alarmSet = true →
      (∀ j : Nat, 1 ≤ j → j < n → s.keptAliveInSeconds + 10 * j < t) →
      ((alarmFire t)^[n] s).keptAliveInSeconds = s.keptAliveInSeconds + 10 * n ∧
      (1 ≤ n → ((alarmFire t)^[n] s).storedKeptAlive = s.keptAliveInSeconds + 10 * n)) ∧
    (s.alarmSet = true → s.keptAliveInSeconds + 10 < t →
      (alarmFire t s).alarmSet = true) ∧
    (s.alarmSet = true → t ≤ s.keptAliveInSeconds + 10 →
      (alarmFire t s).alarmSet = false ∧
      (alarmFire t s).browser = false ∧
      (alarmFire t s).browserCloseCount =
        s.browserCloseCount + (if s.browser then 1 else 0) ∧
      (∀ m : Nat, (alarmFire t)^[m] (alarmFire t s) = alarmFire t s)) ∧
    ((requestFinally s).keptAliveInSeconds = 0 ∧ (requestFinally s).alarmSet = true) ∧
    ((requestFinally s).storedKeptAlive = s.storedKeptAlive) ∧
    (s.alarmSet = true →
      (alarmFire t s).storedKeptAlive = (alarmFire t s).keptAliveInSeconds) := by
  have hfire : s.alarmSet = true → alarmFire t s = alarmHandler t s := by
    intro hset
    unfold alarmFire
    rw [hset]
    simp
  refine ⟨alarmFire_run t n s, fun hset hlt => ?_, fun hset hge => ?_, ?_, ?_, fun hset => ?_⟩
  · rw [hfire hset]
    unfold alarmHandler
    rw [if_pos hlt]
  · have hne : ¬ (s.keptAliveInSeconds + 10 < t) := by omega
    have hstate : alarmFire t s =
        { keptAliveInSeconds := s.keptAliveInSeconds + 10
          storedKeptAlive := s.keptAliveInSeconds + 10
          alarmSet := false
          browser := false
          browserCloseCount := s.browserCloseCount + (if s.browser then 1 else 0) } := by
      rw [hfire hset]
      unfold alarmHandler
      rw [if_neg hne]
    refine ⟨by rw [hstate], by rw [hstate], by rw [hstate], fun m => ?_⟩
    apply Function.iterate_fixed
    apply alarmFire_not_set
    rw [hstate]
  · unfold requestFinally
    by_cases hset : s.alarmSet = true
    · rw [if_pos (by simpa using hset)]
      exact ⟨rfl, hset⟩
    · rw [if_neg (by simpa using hset)]
      exact ⟨rfl, rfl⟩
  · unfold requestFinally
    by_cases hset : s.alarmSet = true
    · rw [if_pos (by simpa using hset)]
    · rw [if_neg (by simpa using hset)]
  · rw [hfire hset]
    unfold alarmHandler
    by_cases hlt : s.keptAliveInSeconds + 10 < t
    · rw [if_pos hlt]
    · rw [if_neg hlt]

/-- Witness for C1 (amended): with threshold 60, from a fresh armed state
three firings bring the counter and its persisted copy to 30; a firing at
counter 50 closes the browser and disarms the timer; a request reset zeroes
the in-memory counter, re-arms the timer and leaves the persisted copy at its
old value 30. -/
theorem claim_C1_witness :
    ((alarmFire 60)^[3] (DOState.mk 0 0 true true 0)).keptAliveInSeconds = 0 + 10 * 3 ∧
    ((alarmFire 60)^[3] (DOState.mk 0 0 true true 0)).storedKeptAlive = 0 + 10 * 3 ∧
    (alarmFire 60 (DOState.mk 50 50 true true 0)).alarmSet = false ∧
    (alarmFire 60 (DOState.mk 50 50 true true 0)).browserCloseCount = 0 + 1 ∧
    (requestFinally (DOState.mk 30 30 true true 0)).keptAliveInSeconds = 0 ∧
    (requestFinally (DOState.mk 30 30 true true 0)).storedKeptAlive = 30 := by
  have hrun := (claim_C1_amended 60 (DOState.mk 0 0 true true 0) 3).1 rfl
      (by intro j h1 h2; simp; omega)
  have hthr := (claim_C1_amended 60 (DOState.mk 50 50 true true 0) 0).2.2.1 rfl (by decide)
  have hreset := (claim_C1_amended 60 (DOState.mk 30 30 true true 0) 0).2.2.2
  refine ⟨hrun.1, hrun.2 (by omega), hthr.1, ?_, hreset.1.1, hreset.2.1⟩
  have := hthr.2.2.1
  simpa using this

/-! ## Resource handle manager (`Browser.ensureBrowser`, src/index.ts)

The rendering engine is an external collaborator; launch attempt outcomes,
the orphaned-session listing and per-session close outcomes are oracles.
`EnsureOut` records the returned boolean together with ghost counters for the
number of launch attempts and of session-close attempts. -/

structure EnsureEnv where
  connectedAtStart : Bool
  launchOk : Nat → Bool
  sessions : Nat
  listOk : Bool
  closeOk : Nat → Bool

structure EnsureOut where
  ok : Bool
  launches : Nat
  closeAttempts : Nat
deriving DecidableEq, Repr

/-- The session cleanup loop between failed launch attempts: when
`puppeteer.sessions` succeeds, every listed session gets a
connect-and-close attempt inside its own try/catch, so each of the
`e.sessions` sessions is attempted regardless of individual close failures;
when the listing itself fails the loop body is skipped. -/
def cleanupAttempts (e : EnsureEnv) : Nat :=
  if e.listOk then e.sessions else 0

/-- The `while (retries > 0)` loop body of `ensureBrowser`: attempt a launch;
on success return `true`; on failure decrement `retries` and return `false`
when the budget is exhausted, otherwise run the session cleanup and retry.
`attempts`/`closes` are the ghost counters. -/
def ensureGo (e : EnsureEnv) : Nat → Nat → Nat → EnsureOut
  | 0, attempts, closes => ⟨false, attempts, closes⟩
  | r + 1, attempts, closes =>
    if e.launchOk attempts then ⟨true, attempts + 1, closes⟩
    else if r = 0 then ⟨false, attempts + 1, closes⟩
    else ensureGo e r (attempts + 1) (closes + cleanupAttempts e)

/-- Models `Browser.ensureBrowser`: if a browser handle exists and the `version()`
probe succeeds, return `true` immediately; otherwise run the launch loop with
a fixed budget of `retries = 3`. -/
def ensureBrowser (e : EnsureEnv) : EnsureOut :=
  if e.connectedAtStart then ⟨true, 0, 0⟩ else ensureGo e 3 0 0

structure HttpResponse where
  status : Nat
  body : String
deriving DecidableEq, Repr

/-- The response `Browser.fetch` returns when `ensureBrowser` fails. -/
def ensureFailureResponse : HttpResponse :=
  ⟨500, "\x7b\"error\":\"Could not start or connect to browser instance\"\x7d"⟩

/-- The `if (!(await this.ensureBrowser()))` guard of `Browser.fetch`:
`none` means request processing continues with a live browser. -/
def fetchEnsureStage (e : EnsureEnv) : Option HttpResponse :=
  if (ensureBrowser e).ok then none else some ensureFailureResponse

/-- Closed form of the three-attempt launch loop. -/
theorem ensureBrowser_eq (e : EnsureEnv) :
    ensureBrowser e =
      if e.connectedAtStart then ⟨true, 0, 0⟩
      else if e.launchOk 0 then ⟨true, 1, 0⟩
      else if e.launchOk 1 then ⟨true, 2, cleanupAttempts e⟩
      else if e.launchOk 2 then ⟨true, 3, 2 * cleanupAttempts e⟩
      else ⟨false, 3, 2 * cleanupAttempts e⟩ := by
  unfold ensureBrowser
  by_cases hc : e.connectedAtStart
  · rw [if_pos hc, if_pos hc]
  · rw [if_neg hc, if_neg hc]
    show ensureGo e 3 0 0 = _
    rw [show (3 : Nat) = 2 + 1 from rfl]
    unfold ensureGo
    by_cases h0 : e.launchOk 0
    · rw [if_pos h0, if_pos h0]
    · rw [if_neg h0, if_neg h0, if_neg (by decide)]
      rw [show (2 : Nat) = 1 + 1 from rfl]
      unfold ensureGo
      by_cases h1 : e.launchOk 1
      · rw [if_pos h1, if_pos h1]
        simp
      · rw [if_neg h1, if_neg h1, if_neg (by decide)]
        rw [show (1 : Nat) = 0 + 1 from rfl]
        unfold ensureGo
        by_cases h2 : e.launchOk 2
        · rw [if_pos h2, if_pos h2]
          congr 1
          omega
        · rw [if_neg h2, if_neg h2, if_pos rfl]
          congr 1
          omega

/-- C5: `ensureBrowser` returns `true` exactly when a live handle exists
(either the initial probe succeeds or one of the launch attempts succeeds);
it makes at most 3 launch attempts and returns `false` after the fixed budget
of 3 attempts is exhausted; between failed attempts every orphaned session is
given a close attempt (so with all three launches failing the cleanup runs
twice over all listed sessions), and the outcome is completely independent of
the individual session-close results; an exhausted budget makes
`Browser.fetch` return the hard 500 failure response instead of crashing. -/
theorem claim_C5 (e : EnsureEnv) :
    ((ensureBrowser e).ok = true ↔
      (e.connectedAtStart = true ∨ e.launchOk 0 = true ∨
        e.launchOk 1 = true ∨ e.launchOk 2 = true)) ∧
    (ensureBrowser e).launches ≤ 3 ∧
    (e.connectedAtStart = false → e.launchOk 0 = false → e.launchOk 1 = false →
      e.launchOk 2 = false →
      (ensureBrowser e).ok = false ∧
      (ensureBrowser e).launches = 3 ∧
      (ensureBrowser e).closeAttempts = 2 * cleanupAttempts e ∧
      fetchEnsureStage e = some ensureFailureResponse) ∧
    (∀ f g : Nat → Bool,
      ensureBrowser { e with closeOk := f } = ensureBrowser { e with closeOk := g }) := by
  refine ⟨?_, ?_, ?_, ?_⟩
  · rw [ensureBrowser_eq]
    by_cases hc : e.connectedAtStart <;>
      by_cases h0 : e.launchOk 0 <;>
        by_cases h1 : e.launchOk 1 <;>
          by_cases h2 : e.launchOk 2 <;>
            simp [hc, h0, h1, h2]
  · rw [ensureBrowser_eq]
    by_cases hc : e.connectedAtStart <;>
      by_cases h0 : e.launchOk 0 <;>
        by_cases h1 : e.launchOk 1 <;>
          by_cases h2 : e.launchOk 2 <;>
            simp [hc, h0, h1, h2]
  · intro hc h0 h1 h2
    have heq : ensureBrowser e = ⟨false, 3, 2 * cleanupAttempts e⟩ := by
      rw [ensureBrowser_eq, hc, h0, h1, h2]
      simp
    refine ⟨by rw [heq], by rw [heq], by rw [heq], ?_⟩
    unfold fetchEnsureStage
    rw [heq]
    simp
  · intro f g
    rw [ensureBrowser_eq, ensureBrowser_eq]
    rfl

/-- Witness for C5: with no initial handle and all three launches failing
against two listed sessions, `ensureBrowser` returns `false` after exactly 3
launch attempts and 4 session-close attempts, and the request gets the 500
response; flipping every session-close outcome changes nothing. -/
theorem claim_C5_witness :
    (ensureBrowser (EnsureEnv.mk false (fun _ => false) 2 true (fun _ => false))).ok = false ∧
    (ensureBrowser (EnsureEnv.mk false (fun _ => false) 2 true (fun _ => false))).launches = 3 ∧
    (ensureBrowser (EnsureEnv.mk false (fun _ => false) 2 true (fun _ => false))).closeAttempts =
      2 * cleanupAttempts (EnsureEnv.mk false (fun _ => false) 2 true (fun _ => false)) ∧
    fetchEnsureStage (EnsureEnv.mk false (fun _ => false) 2 true (fun _ => false)) =
      some ensureFailureResponse ∧
    ensureBrowser (EnsureEnv.mk false (fun _ => false) 2 true (fun _ => false)) =
      ensureBrowser (EnsureEnv.mk false (fun _ => false) 2 true (fun _ => true)) := by
  have h := claim_C5 (EnsureEnv.mk false (fun _ => false) 2 true (fun _ => false))
  have hmain := h.2.2.1 rfl rfl rfl rfl
  refine ⟨hmain.1, hmain.2.1, hmain.2.2.1, hmain.2.2.2, ?_⟩
  exact h.2.2.2 (fun _ => false) (fun _ => true)

/-! ## Extraction router and per-URL orchestrator (`getWebsiteMarkdown`,
src/index.ts)

The routing conditions are the exact string tests of the source; each named
predicate is one test, and `routeUrl` combines them in the source's order. -/

/-- Tests `url.includes('youtube.com/watch') || url.includes('youtu.be/')`. -/
def isYoutubePattern (url : String) : Bool :=
  jsIncludes url "youtube.com/watch" || jsIncludes url "youtu.be/"

/-- Tests `url.startsWith('https://x.com') || url.startsWith('https://twitter.com')`. -/
def isSocialPattern (url : String) : Bool :=
  jsStartsWith url "https://x.com" || jsStartsWith url "https://twitter.com"

/-- Tests `url.includes('reddit.com/r/')`. -/
def isForumPattern (url : String) : Bool :=
  jsIncludes url "reddit.com/r/"

/-- Tests `/^[0-9]+$/.test(lastPart?.split('?')[0] ?? '')` where
`lastPart = url.split('/').pop()`: the terminal path segment, with any query
suffix removed, is non-empty and all digits. -/
def isLikelyStatus (url : String) : Bool :=
  let urlParts := jsSplit url "/"
  let lastPart := urlParts.getLastD ""
  let beforeQ := (jsSplit lastPart "?").headD ""
  !(beforeQ == "") && beforeQ.data.all Char.isDigit

/-- Tests `urlParts.length > 3`: the URL has a path beyond the domain. -/
def hasPathBeyondDomain (url : String) : Bool :=
  (jsSplit url "/").length > 3

inductive Route
  | youtube
  | twitterProfile
  | twitterTweet
  | twitterFallback
  | reddit
  | defaultPage
deriving DecidableEq, Repr

/-- The URL routing of `getWebsiteMarkdown`, in the source's order: YouTube
patterns first; then the social prefix, split into profile
(non-status last segment with a path beyond the domain), tweet (numeric last
segment) and the ambiguous fallback to the default handler; then the Reddit
pattern; then the default page handler. -/
def routeUrl (url : String) : Route :=
  if isYoutubePattern url then .youtube
  else if isSocialPattern url then
    if !(isLikelyStatus url) && hasPathBeyondDomain url then .twitterProfile
    else if isLikelyStatus url then .twitterTweet
    else .twitterFallback
  else if isForumPattern url then .reddit
  else .defaultPage

structure ConvResult where
  url : String
  md : String
  error : Bool
  status : Option Nat
  errorDetails : Option String
deriving DecidableEq, Repr

/-- A KV-store operation performed by a task (the `MDA_CACHE` binding). -/
inductive CacheOp
  | put (key value : String) (ttl : Nat)
  | delete (key : String)
deriving DecidableEq, Repr

/-- Output of one per-URL task: its `ConvResult`, the KV operations it issued
in order, and a ghost count of `handleDefaultPage` invocations. -/
structure TaskOut where
  result : ConvResult
  ops : List CacheOp
  defaultFetches : Nat
deriving DecidableEq, Repr

/-- Environment of `getWebsiteMarkdown`: request data (`token`, `llmFilter`),
and the external collaborators as oracles — the rate limiter, the browser
state, a snapshot of the KV cache, the page/LLM/handler fetch results, and
`throws`, which records whether the per-URL processing throws an exception
(`some message`) that the surrounding try/catch converts into an error
result. -/
structure OrchEnv where
  secretToken : String
  token : String
  rateAllowed : String → Bool
  llmFilter : Bool
  browserOk : Bool
  cache : String → Option String
  defaultPage : String → String
  llm : String → String
  youtubeMd : String → String
  profileMd : String → String
  profileErr : String → Bool
  tweetMd : String → String
  tweetErr : String → Bool
  redditMd : String → String
  redditErr : String → Bool
  throws : String → Option String

/-- The query-string portion of a URL: everything after the first `?`
(fragments stripped first). -/
def queryString (url : String) : String :=
  String.intercalate "?" (jsSplit ((jsSplit url "#").headD "") "?").tail

/-- Models the platform URL API test `new URL(url).searchParams.has('nocache')`
used in `getWebsiteMarkdown`: some `&`-separated query parameter has key
`nocache` (percent-decoding is not modelled; the URLs in the claims need
none). -/
def hasNocacheParam (url : String) : Bool :=
  (jsSplit (queryString url) "&").any (fun p => (jsSplit p "=").headD "" == "nocache")

/-- Models the platform URL API sequence in `Browser.fetch`:
`const urlObj = new URL(url); urlObj.searchParams.set('nocache', 'true');
url = urlObj.toString()` — for URLs already in normalized form (explicit
path, no fragment).  With no query string, `?nocache=true` is appended;
otherwise the `nocache` parameter is set/added in the query. -/
def setNocacheTrue (url : String) : String :=
  match jsSplit url "?" with
  | [] => url
  | [base] => base ++ "?nocache=true"
  | base :: qs =>
    let q := String.intercalate "?" qs
    let params := jsSplit q "&"
    let hasKey := params.any (fun p => (jsSplit p "=").headD "" == "nocache")
    let params2 :=
      if hasKey then
        params.map (fun p => if (jsSplit p "=").headD "" == "nocache" then "nocache=true" else p)
      else params ++ ["nocache=true"]
    base ++ ("?" ++ String.intercalate "&" params2)

/-- The fresh-fetch part of the default-page branch: call `handleDefaultPage`;
on the `## Error` sentinel mark the result as an error with a 504 status for
timeout wording and 500 otherwise; otherwise optionally apply the LLM filter
and cache the final markdown under `cacheKey` with TTL 3600.  `ops0` carries
the delete issued beforehand on the nocache path. -/
def defaultFetchPath (e : OrchEnv) (url cacheKey : String) (ops0 : List CacheOp) : TaskOut :=
  if jsStartsWith (e.defaultPage url) "## Error" then
    ⟨⟨url, e.defaultPage url, true,
        some (if jsIncludes (e.defaultPage url) "Timeout" then 504 else 500),
        some (e.defaultPage url)⟩,
      ops0, 1⟩
  else
    ⟨⟨url, if e.llmFilter then e.llm (e.defaultPage url) else e.defaultPage url,
        false, none, none⟩,
      ops0 ++ [CacheOp.put cacheKey
        (if e.llmFilter then e.llm (e.defaultPage url) else e.defaultPage url) 3600],
      1⟩

/-- The default-page branch of `getWebsiteMarkdown`: compute
`shouldSkipCache` and `cacheKey`; with nocache, delete the entry and always
fetch; otherwise return a cache hit verbatim or fetch on a miss. -/
def defaultBranch (e : OrchEnv) (url cacheIdBase : String) : TaskOut :=
  if hasNocacheParam url || jsIncludes url "nocache=true" then
    defaultFetchPath e url ("Default:" ++ cacheIdBase)
      [CacheOp.delete ("Default:" ++ cacheIdBase)]
  else
    match e.cache ("Default:" ++ cacheIdBase) with
    | some v => ⟨⟨url, v, false, none, none⟩, [], 0⟩
    | none => defaultFetchPath e url ("Default:" ++ cacheIdBase) []

/-- One URL of the `urls.map` callback in `getWebsiteMarkdown` (without the
outer try/catch): rate-limit check unless the caller holds the backend token,
then routing per `routeUrl`.  The YouTube/Twitter/Reddit handlers do their own
internal caching, so they contribute no `MDA_CACHE` operations here; the
ambiguous-Twitter fallback calls `handleDefaultPage` directly with no cache
interaction and `error: false`. -/
def processUrl (e : OrchEnv) (url : String) : TaskOut :=
  if e.token != e.secretToken && !e.rateAllowed url then
    ⟨⟨url, "Rate limit exceeded", true, some 429, none⟩, [], 0⟩
  else
    match routeUrl url with
    | .youtube => ⟨⟨url, e.youtubeMd url, false, none, none⟩, [], 0⟩
    | .twitterProfile => ⟨⟨url, e.profileMd url, e.profileErr url, none, none⟩, [], 0⟩
    | .twitterTweet => ⟨⟨url, e.tweetMd url, e.tweetErr url, none, none⟩, [], 0⟩
    | .twitterFallback => ⟨⟨url, e.defaultPage url, false, none, none⟩, [], 1⟩
    | .reddit => ⟨⟨url, e.redditMd url, e.redditErr url, none, none⟩, [], 0⟩
    | .defaultPage => defaultBranch e url (url ++ (if e.llmFilter then "-llm" else ""))

/-- One URL of the `urls.map` callback including the try/catch: an exception
is converted into the fixed error-shaped result with status 500 and the
exception message as `errorDetails`. -/
def taskRun (e : OrchEnv) (url : String) : TaskOut :=
  match e.throws url with
  | some msg =>
    ⟨⟨url, "Failed to process page due to unexpected error", true, some 500, some msg⟩, [], 0⟩
  | none => processUrl e url

/-- Models `getWebsiteMarkdown`: if `ensureBrowser` fails, every URL gets the fixed
browser-failure result; otherwise all URLs are processed independently
(`Promise.all` over `urls.map`) and the results are collected in input
order. -/
def getWebsiteMarkdown (e : OrchEnv) (urls : List String) : List ConvResult :=
  if !e.browserOk then
    urls.map (fun url => ⟨url, "[Browser] Could not start browser instance", true, some 500, none⟩)
  else
    urls.map (fun url => (taskRun e url).result)

/-- Replay one KV operation on a cache snapshot (the KV store is an external
atomic key-value map). -/
def applyOp (c : String → Option String) : CacheOp → (String → Option String)
  | .put k v _ => fun q => if q = k then some v else c q
  | .delete k => fun q => if q = k then none else c q

/-- Replay a list of KV operations in order. -/
def applyOps (c : String → Option String) (ops : List CacheOp) : String → Option String :=
  ops.foldl applyOp c

/-- The `Browser.fetch` pipeline for a single default-page request: when the
`nocache=true` query flag is set, the URL is first rewritten with
`setNocacheTrue` (lines 127–136 of the source) and the rewritten URL is what
reaches `getWebsiteMarkdown`. -/
def doRequestDefault (e : OrchEnv) (rawUrl : String) (noCacheFlag : Bool) : TaskOut :=
  processUrl e (if noCacheFlag then setNocacheTrue rawUrl else rawUrl)

/-- C6: routing is a pure function of the identifier string evaluated in fixed
precedence: video-host patterns first, then the social prefix (split into
tweet when the terminal path segment is numeric, profile when it is
non-numeric with a path beyond the domain, and the generic fallback when
ambiguous), then the forum pattern, then the generic default; in particular a
URL matching the social prefix whose last path segment is all digits never
classifies as profile. -/
theorem claim_C6 (url : String) :
    (isYoutubePattern url = true → routeUrl url = Route.youtube) ∧
    (isYoutubePattern url = false → isSocialPattern url = true →
      isLikelyStatus url = true → routeUrl url = Route.twitterTweet) ∧
    (isYoutubePattern url = false → isSocialPattern url = true →
      isLikelyStatus url = false → hasPathBeyondDomain url = true →
      routeUrl url = Route.twitterProfile) ∧
    (isYoutubePattern url = false → isSocialPattern url = true →
      isLikelyStatus url = false → hasPathBeyondDomain url = false →
      routeUrl url = Route.twitterFallback) ∧
    (isYoutubePattern url = false → isSocialPattern url = false →
      isForumPattern url = true → routeUrl url = Route.reddit) ∧
    (isYoutubePattern url = false → isSocialPattern url = false →
      isForumPattern url = false → routeUrl url = Route.defaultPage) ∧
    (isSocialPattern url = true → isLikelyStatus url = true →
      routeUrl url ≠ Route.twitterProfile) := by
  refine ⟨?_, ?_, ?_, ?_, ?_, ?_, ?_⟩
  · intro hy
    simp [routeUrl, hy]
  · intro hy hs hst
    simp [routeUrl, hy, hs, hst]
  · intro hy hs hst hp
    simp [routeUrl, hy, hs, hst, hp]
  · intro hy hs hst hp
    simp [routeUrl, hy, hs, hst, hp]
  · intro hy hs hf
    simp [routeUrl, hy, hs, hf]
  · intro hy hs hf
    simp [routeUrl, hy, hs, hf]
  · intro hs hst
    by_cases hy : isYoutubePattern url = true
    · simp [routeUrl, hy]
    · simp only [Bool.not_eq_true] at hy
      simp [routeUrl, hy, hs, hst]

/-- Witness for C6: `https://x.com/user/123456` matches the social prefix with
a numeric terminal segment and routes to the tweet handler, not the profile
handler; `https://x.com/user` routes to the profile handler; all hypotheses
are discharged by evaluation. -/
theorem claim_C6_witness :
    routeUrl "https://x.com/user/123456" = Route.twitterTweet ∧
    routeUrl "https://x.com/user/123456" ≠ Route.twitterProfile ∧
    routeUrl "https://x.com/user" = Route.twitterProfile ∧
    routeUrl "https://www.reddit.com/r/cars" = Route.reddit := by
  refine ⟨?_, ?_, ?_, ?_⟩
  · exact (claim_C6 "https://x.com/user/123456").2.1 (by decide) (by decide) (by decide)
  · exact (claim_C6 "https://x.com/user/123456").2.2.2.2.2.2 (by decide) (by decide)
  · exact (claim_C6 "https://x.com/user").2.2.1 (by decide) (by decide) (by decide) (by decide)
  · exact (claim_C6 "https://www.reddit.com/r/cars").2.2.2.2.1 (by decide) (by decide) (by decide)

/-- With an authorized caller and a URL that routes to the default handler,
the per-URL task is exactly the default-page branch with cache id
`url + (llmFilter ? "-llm" : "")`. -/
theorem processUrl_default (e : OrchEnv) (url : String)
    (hauth : e.token = e.secretToken)
    (hroute : routeUrl url = Route.defaultPage) :
    processUrl e url = defaultBranch e url (url ++ (if e.llmFilter then "-llm" else "")) := by
  unfold processUrl
  have hc : (e.token != e.secretToken && !e.rateAllowed url) = false := by
    simp [hauth]
  rw [hc, hroute]
  rfl

/-- C2 (amended): for a URL routed to the default-page branch (rather than to
the ambiguous-social fallback, which skips the cache layer entirely — see the
counterexample) and requested by an authorized caller without cache bypass, a
cache hit under the key `Default:{url}{-llm when llmFilter}` is returned
verbatim with no page fetch and no cache write; on a miss the page is fetched
once, and the result is written back with TTL 3600 exactly when it is not an
`## Error` result; an error result issues no cache write, so a repeat request
against the resulting cache state fetches again. -/
theorem claim_C2 (e : OrchEnv) (url : String)
    (hauth : e.token = e.secretToken)
    (hroute : routeUrl url = Route.defaultPage)
    (hnc1 : hasNocacheParam url = false)
    (hnc2 : jsIncludes url "nocache=true" = false) :
    (∀ v, e.cache ("Default:" ++ (url ++ (if e.llmFilter then "-llm" else ""))) = some v →
      processUrl e url = ⟨⟨url, v, false, none, none⟩, [], 0⟩) ∧
    (e.cache ("Default:" ++ (url ++ (if e.llmFilter then "-llm" else ""))) = none →
      (processUrl e url).defaultFetches = 1 ∧
      (jsStartsWith (e.defaultPage url) "## Error" = false →
        (processUrl e url).result.error = false ∧
        (processUrl e url).ops =
          [CacheOp.put ("Default:" ++ (url ++ (if e.llmFilter then "-llm" else "")))
            (processUrl e url).result.md 3600]) ∧
      (jsStartsWith (e.defaultPage url) "## Error" = true →
        (processUrl e url).result.error = true ∧
        (processUrl e url).ops = [] ∧
        (processUrl { e with cache := applyOps e.cache (processUrl e url).ops } url).defaultFetches = 1)) := by
  have hskip : (hasNocacheParam url || jsIncludes url "nocache=true") = false := by
    rw [hnc1, hnc2]
    rfl
  rw [processUrl_default e url hauth hroute]
  unfold defaultBranch
  rw [hskip]
  simp only [Bool.false_eq_true, if_false]
  constructor
  · intro v hv
    rw [hv]
  · intro hmiss
    rw [hmiss]
    unfold defaultFetchPath
    by_cases herr : jsStartsWith (e.defaultPage url) "## Error" = true
    · rw [if_pos herr]
      refine ⟨rfl, fun hne => absurd herr (by simp [hne]), fun _ => ⟨rfl, rfl, ?_⟩⟩
      show (processUrl e url).defaultFetches = 1
      rw [processUrl_default e url hauth hroute]
      unfold defaultBranch
      rw [hskip]
      simp only [Bool.false_eq_true, if_false]
      rw [hmiss]
      unfold defaultFetchPath
      rw [if_pos herr]
    · rw [if_neg herr]
      exact ⟨rfl, fun _ => ⟨rfl, rfl⟩, fun habs => absurd habs herr⟩

/-- A concrete orchestrator environment: authorized caller, empty cache, all
fetches succeed. -/
def orchEnvBase : OrchEnv where
  secretToken := "secret"
  token := "secret"
  rateAllowed := fun _ => true
  llmFilter := false
  browserOk := true
  cache := fun _ => none
  defaultPage := fun _ => "# Fresh\n\nfresh body"
  llm := fun s => s
  youtubeMd := fun _ => "yt"
  profileMd := fun _ => "pf"
  profileErr := fun _ => false
  tweetMd := fun _ => "tw"
  tweetErr := fun _ => false
  redditMd := fun _ => "rd"
  redditErr := fun _ => false
  throws := fun _ => none

/-- Variant of `orchEnvBase` with a cached entry for the default page of
`https://example.com/`. -/
def envC2hit : OrchEnv :=
  { orchEnvBase with
    cache := fun k => if k = "Default:https://example.com/" then some "cached page" else none }

/-- Witness for C2: with a populated cache the stored value is returned
verbatim with no fetch and no KV write; with an empty cache the page is
fetched once and written back under the default key with TTL 3600. -/
theorem claim_C2_witness :
    processUrl envC2hit "https://example.com/" =
      ⟨⟨"https://example.com/", "cached page", false, none, none⟩, [], 0⟩ ∧
    (processUrl orchEnvBase "https://example.com/").defaultFetches = 1 ∧
    (processUrl orchEnvBase "https://example.com/").ops =
      [CacheOp.put "Default:https://example.com/"
        (processUrl orchEnvBase "https://example.com/").result.md 3600] := by
  have h1 := (claim_C2 envC2hit "https://example.com/" rfl (by decide) (by decide)
    (by decide)).1 "cached page" (by decide)
  have h2 := (claim_C2 orchEnvBase "https://example.com/" rfl (by decide) (by decide)
    (by decide)).2 (by decide)
  have h3 := (h2.2.1 (by decide)).2
  refine ⟨h1, h2.1, ?_⟩
  rw [h3]
  decide

/-- Variant of `orchEnvBase` with a stale cached entry under the key a non-bypass request
for `https://example.com/` reads. -/
def envC3 : OrchEnv :=
  { orchEnvBase with
    cache := fun k => if k = "Default:https://example.com/" then some "stale" else none }

/-- C3 counterexample: a bypass request for `https://example.com/` rewrites
the URL to `https://example.com/?nocache=true` first, so the key it deletes is
`Default:https://example.com/?nocache=true`, not the key
`Default:https://example.com/` from which a non-bypass request reads; after
the bypass completes, a non-bypass request for the same URL still observes the
stale pre-bypass entry, contradicting the claim. -/
theorem claim_C3_counterexample :
    (CacheOp.delete "Default:https://example.com/" ∉
      (doRequestDefault envC3 "https://example.com/" true).ops) ∧
    ((doRequestDefault envC3 "https://example.com/" true).ops.head? =
      some (CacheOp.delete "Default:https://example.com/?nocache=true")) ∧
    (processUrl
        { envC3 with
          cache := applyOps envC3.cache (doRequestDefault envC3 "https://example.com/" true).ops }
        "https://example.com/").result =
      ⟨"https://example.com/", "stale", false, none, none⟩ ∧
    (doRequestDefault envC3 "https://example.com/" true).result.md = "# Fresh\n\nfresh body" := by
  decide

/-- C3 (amended): with `nocache=true` the request URL is rewritten to carry
the `nocache` query parameter before any cache-key computation, so the entry
deleted before fetching is the one under the rewritten key
`Default:{rewritten-url}{-llm when llmFilter}` — not the key non-bypass
requests read; the page fetch is always invoked exactly once, and the outcome
is completely independent of the cache contents (a previously cached value is
never returned).  The stale entry under the non-bypass key is not touched
(counterexample theorem). -/
theorem claim_C3_amended (e : OrchEnv) (rawUrl : String)
    (hauth : e.token = e.secretToken)
    (hroute : routeUrl (setNocacheTrue rawUrl) = Route.defaultPage)
    (hnp : hasNocacheParam (setNocacheTrue rawUrl) = true) :
    (doRequestDefault e rawUrl true).ops.head? =
      some (CacheOp.delete
        ("Default:" ++ (setNocacheTrue rawUrl ++ (if e.llmFilter then "-llm" else "")))) ∧
    (doRequestDefault e rawUrl true).defaultFetches = 1 ∧
    (∀ c1 c2 : String → Option String,
      doRequestDefault { e with cache := c1 } rawUrl true =
        doRequestDefault { e with cache := c2 } rawUrl true) := by
  have hstep : ∀ e' : OrchEnv, e'.token = e'.secretToken → e'.llmFilter = e.llmFilter →
      doRequestDefault e' rawUrl true =
        defaultFetchPath e' (setNocacheTrue rawUrl)
          ("Default:" ++ (setNocacheTrue rawUrl ++ (if e'.llmFilter then "-llm" else "")))
          [CacheOp.delete
            ("Default:" ++ (setNocacheTrue rawUrl ++ (if e'.llmFilter then "-llm" else "")))] := by
    intro e' hauth' _
    show processUrl e' (setNocacheTrue rawUrl) = _
    rw [processUrl_default e' _ hauth' hroute]
    unfold defaultBranch
    have hskip : (hasNocacheParam (setNocacheTrue rawUrl) ||
        jsIncludes (setNocacheTrue rawUrl) "nocache=true") = true := by
      rw [hnp]
      rfl
    rw [if_pos hskip]
  refine ⟨?_, ?_, ?_⟩
  · rw [hstep e hauth rfl]
    unfold defaultFetchPath
    split
    all_goals rfl
  · rw [hstep e hauth rfl]
    unfold defaultFetchPath
    split
    all_goals rfl
  · intro c1 c2
    rw [hstep { e with cache := c1 } hauth rfl, hstep { e with cache := c2 } hauth rfl]
    rfl

/-- Witness for C3 (amended): for `https://example.com/` the bypass request
deletes the rewritten key, fetches exactly once, and behaves identically on
two different cache contents. -/
theorem claim_C3_witness :
    (doRequestDefault envC3 "https://example.com/" true).ops.head? =
      some (CacheOp.delete "Default:https://example.com/?nocache=true") ∧
    (doRequestDefault envC3 "https://example.com/" true).defaultFetches = 1 ∧
    doRequestDefault { envC3 with cache := fun _ => none } "https://example.com/" true =
      doRequestDefault { envC3 with cache := fun _ => some "anything" } "https://example.com/" true := by
  have h := claim_C3_amended envC3 "https://example.com/" rfl (by decide) (by decide)
  refine ⟨?_, h.2.1, h.2.2 (fun _ => none) (fun _ => some "anything")⟩
  rw [h.1]
  decide

/-- Every per-URL task result carries the URL it was asked about. -/
theorem taskRun_url (e : OrchEnv) (url : String) : (taskRun e url).result.url = url := by
  unfold taskRun
  cases e.throws url with
  | some msg => rfl
  | none =>
    show (processUrl e url).result.url = url
    unfold processUrl
    by_cases hr : (e.token != e.secretToken && !e.rateAllowed url) = true
    · rw [if_pos hr]
    · rw [if_neg hr]
      cases hroute : routeUrl url with
      | youtube => rfl
      | twitterProfile => rfl
      | twitterTweet => rfl
      | twitterFallback => rfl
      | reddit => rfl
      | defaultPage =>
        show (defaultBranch e url (url ++ (if e.llmFilter then "-llm" else ""))).result.url = url
        unfold defaultBranch
        by_cases hskip : (hasNocacheParam url || jsIncludes url "nocache=true") = true
        · rw [if_pos hskip]
          unfold defaultFetchPath
          by_cases herr : jsStartsWith (e.defaultPage url) "## Error" = true
          · rw [if_pos herr]
          · rw [if_neg herr]
        · rw [if_neg hskip]
          cases e.cache ("Default:" ++ (url ++ (if e.llmFilter then "-llm" else ""))) with
          | some v => rfl
          | none =>
            unfold defaultFetchPath
            by_cases herr : jsStartsWith (e.defaultPage url) "## Error" = true
            · rw [if_pos herr]
            · rw [if_neg herr]

/-- C4: the fan-out orchestrator returns one result per input identifier in
input order (the i-th result is about the i-th identifier); processing
decomposes per identifier, so one identifier's task never influences or blocks
another's result; and an exception while processing one identifier becomes an
error-shaped result for that identifier with the diagnostic message, the error
flag and status 500. -/
theorem claim_C4 (e : OrchEnv) (urls : List String) :
    (getWebsiteMarkdown e urls).length = urls.length ∧
    (∀ i : Nat, ((getWebsiteMarkdown e urls).get? i).map ConvResult.url = urls.get? i) ∧
    (∀ (l1 l2 : List String) (u : String),
      getWebsiteMarkdown e (l1 ++ u :: l2) =
        getWebsiteMarkdown e l1 ++ getWebsiteMarkdown e [u] ++ getWebsiteMarkdown e l2) ∧
    (∀ u msg, e.browserOk = true → e.throws u = some msg →
      getWebsiteMarkdown e [u] =
        [⟨u, "Failed to process page due to unexpected error", true, some 500, some msg⟩]) := by
  refine ⟨?_, ?_, ?_, ?_⟩
  · unfold getWebsiteMarkdown
    split
    · rw [List.length_map]
    · rw [List.length_map]
  · intro i
    unfold getWebsiteMarkdown
    split
    · rw [List.get?_map]
      cases urls.get? i with
      | none => rfl
      | some u => rfl
    · rw [List.get?_map]
      cases hg : urls.get? i with
      | none => rfl
      | some u => simp [taskRun_url]
  · intro l1 l2 u
    unfold getWebsiteMarkdown
    split
    · simp
    · simp
  · intro u msg hb ht
    unfold getWebsiteMarkdown
    rw [hb]
    simp only [Bool.not_true, Bool.false_eq_true, if_false, List.map_cons, List.map_nil]
    unfold taskRun
    rw [ht]

/-- Variant of `orchEnvBase` where processing `https://boom.example/` throws. -/
def envC4 : OrchEnv :=
  { orchEnvBase with
    throws := fun u => if u = "https://boom.example/" then some "boom" else none }

/-- Witness for C4: in a three-URL fan-out where the middle identifier throws,
the result list pairs each input with its own result in order, the failing
identifier gets the error-shaped 500 result with its message, and the
neighbours are unaffected. -/
theorem claim_C4_witness :
    getWebsiteMarkdown envC4 ["https://a.example/", "https://boom.example/", "https://c.example/"] =
      getWebsiteMarkdown envC4 ["https://a.example/"] ++
        getWebsiteMarkdown envC4 ["https://boom.example/"] ++
        getWebsiteMarkdown envC4 ["https://c.example/"] ∧
    getWebsiteMarkdown envC4 ["https://boom.example/"] =
      [⟨"https://boom.example/", "Failed to process page due to unexpected error",
        true, some 500, some "boom"⟩] ∧
    ((getWebsiteMarkdown envC4
        ["https://a.example/", "https://boom.example/", "https://c.example/"]).get? 0).map
      ConvResult.url = some "https://a.example/" := by
  have h := claim_C4 envC4 ["https://a.example/", "https://boom.example/", "https://c.example/"]
  refine ⟨?_, ?_, ?_⟩
  · exact h.2.2.1 ["https://a.example/"] ["https://c.example/"] "https://boom.example/"
  · exact h.2.2.2 "https://boom.example/" "boom" rfl (by decide)
  · exact h.2.1 0

/-! ## Crawl aggregator, text branch (`crawlSubpages`,
src/handlers/crawl-subpages.ts) -/

/-- Computes `subpage.md.split('---\n\n')[1] || subpage.md`: the piece of a MAGI
document between the first and second occurrence of `---\n\n` (intended: the
content after the YAML frontmatter); when the split has no second piece, or an
empty (falsy) one, the whole document is used. -/
def subpageContentOf (md : String) : String :=
  match (jsSplit md "---\n\n").get? 1 with
  | some s => if s = "" then md else s
  | none => md

/-- The line matched by `/^# (.+)$/m`: the first line starting with `# ` and
having at least one further character. -/
def titleLineOf (content : String) : Option String :=
  (jsSplit content "\n").find? (fun l => jsStartsWith l "# " && l.length > 2)

/-- JavaScript `s.replace(pat, '')` for a string pattern: remove the first
occurrence of `pat`. -/
def replaceFirst (s pat : String) : String :=
  match jsSplit s pat with
  | [] => s
  | [_] => s
  | a :: rest => a ++ String.intercalate pat rest

/-- JavaScript `s.trim()` (over ASCII whitespace). -/
def jsTrim (s : String) : String :=
  String.mk ((s.data.dropWhile Char.isWhitespace).reverse.dropWhile Char.isWhitespace).reverse

/-- One `###` subsection of the combined crawl document for a successful
subpage: title from the subpage's first top-level heading (default
`Untitled Subpage`), followed by the subpage content with that heading's first
occurrence removed and trimmed. -/
def sectionFor (r : ConvResult) : String :=
  match titleLineOf (subpageContentOf r.md) with
  | some l =>
    "\n\n### " ++ String.mk (l.data.drop 2) ++ " [URL](" ++ r.url ++ ")\n\n" ++
      jsTrim (replaceFirst (subpageContentOf r.md) l)
  | none =>
    "\n\n### " ++ "Untitled Subpage" ++ " [URL](" ++ r.url ++ ")\n\n" ++
      jsTrim (subpageContentOf r.md)

/-- The text-branch assembly of `crawlSubpages`: the main result (found by
URL, else the first element) followed, when any subpage result exists, by the
`## Related Subpages` header and one section per non-error subpage (error
subpages contribute nothing). -/
def combineCrawlText (baseUrl : String) (magiResults : List ConvResult) : String :=
  ((magiResults.find? (fun r => r.url == baseUrl)).getD
      (magiResults.headD ⟨"", "", false, none, none⟩)).md ++
    (if (magiResults.filter (fun r => r.url != baseUrl)).length > 0 then
      "\n\n## Related Subpages\n" ++
        strJoin ((magiResults.filter (fun r => r.url != baseUrl)).map
          (fun p => if p.error then "" else sectionFor p))
    else "")

/-- Prepending the empty string is the identity. -/
theorem str_empty_append (s : String) : "" ++ s = s := by
  cases s with
  | mk d => rfl

/-- Every member of a string list is an infix of its concatenation. -/
theorem strJoin_infix (l : List String) (x : String) (hx : x ∈ l) :
    ∃ pre post, strJoin l = pre ++ (x ++ post) := by
  induction l with
  | nil => cases hx
  | cons a t ih =>
    rcases List.mem_cons.mp hx with h | h
    · subst h
      refine ⟨"", strJoin t, ?_⟩
      rw [str_empty_append]
      rfl
    · rcases ih h with ⟨p, q, hpq⟩
      refine ⟨a ++ p, q, ?_⟩
      show a ++ strJoin t = _
      rw [hpq, String.append_assoc]

/-- Closed form of `combineCrawlText` on a seed result followed by subpage
results for other URLs. -/
theorem combineCrawlText_cons (baseUrl : String) (main : ConvResult)
    (rest : List ConvResult) (hmain : main.url = baseUrl)
    (hrest : ∀ r ∈ rest, r.url ≠ baseUrl) :
    combineCrawlText baseUrl (main :: rest) =
      main.md ++
        (if rest.length > 0 then
          "\n\n## Related Subpages\n" ++
            strJoin (rest.map (fun p => if p.error then "" else sectionFor p))
        else "") := by
  unfold combineCrawlText
  have hfind : (main :: rest).find? (fun r => r.url == baseUrl) = some main := by
    apply List.find?_cons_of_pos
    simp [hmain]
  have hfilter : (main :: rest).filter (fun r => r.url != baseUrl) = rest := by
    have h1 : (main :: rest).filter (fun r => r.url != baseUrl) =
        rest.filter (fun r => r.url != baseUrl) := by
      apply List.filter_cons_of_neg
      simp [hmain]
    rw [h1]
    apply List.filter_eq_self.mpr
    intro a ha
    simp [hrest a ha]
  rw [hfind, hfilter]
  rfl

/-- C7: for a crawl answered in text format the response is a single combined
document: the seed document first; the `## Related Subpages` marker appears
when at least one subpage succeeded and is omitted when the only crawled item
is the seed itself; each successfully extracted subpage contributes its `###`
subsection (an infix of the combined document), whose title is the subpage's
first top-level heading with that heading's first occurrence stripped from the
embedded body; error subpages contribute no subsection. -/
theorem claim_C7 (baseUrl : String) (main : ConvResult) (rest : List ConvResult)
    (hmain : main.url = baseUrl)
    (hrest : ∀ r ∈ rest, r.url ≠ baseUrl) :
    (rest = [] → combineCrawlText baseUrl (main :: rest) = main.md) ∧
    ((∃ r ∈ rest, r.error = false) →
      ∃ pre post, combineCrawlText baseUrl (main :: rest) =
        pre ++ ("## Related Subpages" ++ post)) ∧
    (∀ r ∈ rest, r.error = false →
      ∃ pre post, combineCrawlText baseUrl (main :: rest) =
        pre ++ (sectionFor r ++ post)) ∧
    (∀ r ∈ rest, r.error = false →
      ∀ l, titleLineOf (subpageContentOf r.md) = some l →
        sectionFor r =
          "\n\n### " ++ String.mk (l.data.drop 2) ++ " [URL](" ++ r.url ++ ")\n\n" ++
            jsTrim (replaceFirst (subpageContentOf r.md) l)) := by
  have hcons := combineCrawlText_cons baseUrl main rest hmain hrest
  refine ⟨?_, ?_, ?_, ?_⟩
  · intro h
    subst h
    rw [hcons]
    show main.md ++ "" = main.md
    exact String.append_empty main.md
  · rintro ⟨r, hr, _⟩
    have hlen : rest.length > 0 := by
      cases rest with
      | nil => cases hr
      | cons a t => simp
    rw [hcons, if_pos hlen]
    refine ⟨main.md ++ "\n\n", "\n" ++
      strJoin (rest.map (fun p => if p.error then "" else sectionFor p)), ?_⟩
    have hlit : ("\n\n## Related Subpages\n" : String) =
        "\n\n" ++ ("## Related Subpages" ++ "\n") := rfl
    rw [hlit]
    simp only [String.append_assoc]
  · intro r hr herr
    have hlen : rest.length > 0 := by
      cases rest with
      | nil => cases hr
      | cons a t => simp
    rw [hcons, if_pos hlen]
    have hmem : sectionFor r ∈ rest.map (fun p => if p.error then "" else sectionFor p) := by
      have := List.mem_map_of_mem (fun p => if p.error then "" else sectionFor p) hr
      simp only [herr, Bool.false_eq_true, if_false] at this
      exact this
    rcases strJoin_infix _ _ hmem with ⟨p, q, hpq⟩
    refine ⟨main.md ++ ("\n\n## Related Subpages\n" ++ p), q, ?_⟩
    rw [hpq]
    simp only [String.append_assoc]
  · intro r _ _ l htitle
    unfold sectionFor
    rw [htitle]

/-- The seed result for the C7 witness. -/
def mainRes : ConvResult := ⟨"https://base/", "MAIN", false, none, none⟩

/-- A successfully extracted subpage result for the C7 witness, with YAML
frontmatter and a first top-level heading `# Sub Title`. -/
def subRes : ConvResult :=
  ⟨"https://base/sub", "---\nx\n---\n\n# Sub Title\n\nbody text", false, none, none⟩

/-- Witness for C7: with one successful subpage the combined text document is
the seed document, the `## Related Subpages` marker, and the subpage's `###`
section titled from its first heading with that heading stripped; with no
subpages the combined document is exactly the seed document (no marker). -/
theorem claim_C7_witness :
    (∃ pre post, combineCrawlText "https://base/" [mainRes, subRes] =
      pre ++ ("## Related Subpages" ++ post)) ∧
    (∃ pre post, combineCrawlText "https://base/" [mainRes, subRes] =
      pre ++ (sectionFor subRes ++ post)) ∧
    combineCrawlText "https://base/" [mainRes] = mainRes.md ∧
    sectionFor subRes = "\n\n### Sub Title [URL](https://base/sub)\n\nbody text" ∧
    combineCrawlText "https://base/" [mainRes, subRes] =
      "MAIN\n\n## Related Subpages\n\n\n### Sub Title [URL](https://base/sub)\n\nbody text" := by
  have h := claim_C7 "https://base/" mainRes [subRes] (by decide) (by decide)
  refine ⟨h.2.1 ⟨subRes, by decide, by decide⟩, h.2.2.1 subRes (by decide) (by decide),
    (claim_C7 "https://base/" mainRes [] (by decide) (by decide)).1 rfl, by decide, by decide⟩

/-! ## Forum-listing handler (`handleRedditURL`, src/handlers/reddit.ts)

The public and authenticated Reddit API calls are oracles: `publicMd` and
`publicRateLimited` are the fields of the `fetchRedditPublicApi` result, and
`authMd` is the markdown returned by `fetchRedditAuthenticatedApi`. -/

structure RedditEnv where
  cache : String → Option String
  publicMd : String
  publicRateLimited : Bool
  authMd : String

/-- Case-insensitive prefix match of a (lowercase) pattern against a
character list. -/
def ciPrefix : List Char → List Char → Bool
  | [], _ => true
  | _ :: _, [] => false
  | p :: ps, c :: cs => (c.toLower == p) && ciPrefix ps cs

/-- A character of the capture class `[A-Za-z0-9_-]`. -/
def isSubredditChar (c : Char) : Bool :=
  c.isAlphanum || c == '_' || c == '-'

/-- Models `url.match(/reddit\.com\/r\/([A-Za-z0-9_-]+)/i)`: scan left to right for
the literal `reddit.com/r/` (case-insensitively) followed by at least one
capture-class character; return the captured subreddit name. -/
def redditCapture : List Char → Option String
  | [] => none
  | c :: cs =>
    if ciPrefix "reddit.com/r/".data (c :: cs) then
      if ((c :: cs).drop 13).takeWhile isSubredditChar = [] then redditCapture cs
      else some (String.mk (((c :: cs).drop 13).takeWhile isSubredditChar))
    else redditCapture cs

/-- The substring indicators `handleRedditURL` tests on the
authenticated-API markdown to decide the error flag. -/
def hasErrorIndicators (md : String) : Bool :=
  jsIncludes md "Failed to" || jsIncludes md "Error" || jsIncludes md "limit" ||
    jsIncludes md "failed" || jsIncludes md "not configured" || jsIncludes md "authenticate"

/-- Models `handleRedditURL`: reject URLs without a subreddit match; return a cached
listing verbatim; otherwise try the public API, returning its markdown when it
was neither rate-limited nor empty; else fall back to the authenticated API
and set the error flag exactly when the returned markdown contains one of the
error-indicator substrings. -/
def handleRedditURL (e : RedditEnv) (url : String) : ConvResult :=
  match redditCapture url.data with
  | none => ⟨url, "Invalid Reddit URL format", true, none, none⟩
  | some _ =>
    match e.cache ("Reddit:" ++ url) with
    | some cached => ⟨url, cached, false, none, none⟩
    | none =>
      if !e.publicRateLimited && !(e.publicMd == "") then
        ⟨url, e.publicMd, false, none, none⟩
      else
        ⟨url, e.authMd, hasErrorIndicators e.authMd, none, none⟩

/-- C10: for every Reddit listing URL (one the subreddit pattern matches) that
is not cached and whose public-API fetch yields no content or a rate-limit
signal, the handler returns the authenticated-API markdown with the error flag
set exactly when that markdown contains one of the substrings `Failed to`,
`Error`, `limit`, `failed`, `not configured`, `authenticate` — so a
successfully fetched listing whose text merely contains such a word is
reported as an error result. -/
theorem claim_C10 (e : RedditEnv) (url sub : String)
    (hmatch : redditCapture url.data = some sub)
    (hmiss : e.cache ("Reddit:" ++ url) = none)
    (hfail : e.publicRateLimited = true ∨ e.publicMd = "") :
    (handleRedditURL e url).md = e.authMd ∧
    ((handleRedditURL e url).error = true ↔ hasErrorIndicators e.authMd = true) := by
  unfold handleRedditURL
  rw [hmatch, hmiss]
  have hcond : (!e.publicRateLimited && !(e.publicMd == "")) = false := by
    rcases hfail with h | h
    · rw [h]
      rfl
    · rw [h]
      simp
  rw [hcond]
  exact ⟨rfl, Iff.rfl⟩

/-- A Reddit oracle where the public API is rate-limited and the
authenticated API returns a healthy listing whose first post title contains
the word `limit`. -/
def redditEnvLimit : RedditEnv where
  cache := fun _ => none
  publicMd := ""
  publicRateLimited := true
  authMd := "# Subreddit: r/cars\n\n## No speed limit on the autobahn\n\n- **Author:** u/x\n"

/-- Witness for C10: a successfully fetched authenticated listing whose post
title contains the word `limit` is returned with the error flag set. -/
theorem claim_C10_witness :
    (handleRedditURL redditEnvLimit "https://www.reddit.com/r/cars").md =
      redditEnvLimit.authMd ∧
    (handleRedditURL redditEnvLimit "https://www.reddit.com/r/cars").error = true := by
  have h := claim_C10 redditEnvLimit "https://www.reddit.com/r/cars" "cars"
    (by decide) (by decide) (Or.inl (by decide))
  exact ⟨h.1, h.2.mpr (by decide)⟩

/-- Variant of `orchEnvBase` with a cached entry under the key that would serve
`https://x.com` if the cache layer were consulted. -/
def envC2fb : OrchEnv :=
  { orchEnvBase with
    cache := fun k => if k = "Default:https://x.com" then some "cached page" else none }

/-- C2 counterexample: `https://x.com` is not routed to the video, social-post,
social-profile or forum strategies (it is the ambiguous-social fallback to the
generic handler), is requested without bypass, and has a cache entry under
`Default:https://x.com` — yet the page fetch is invoked and the cached value
is not returned: the fallback path skips the cache layer entirely. -/
theorem claim_C2_counterexample :
    routeUrl "https://x.com" ≠ Route.youtube ∧
    routeUrl "https://x.com" ≠ Route.twitterTweet ∧
    routeUrl "https://x.com" ≠ Route.twitterProfile ∧
    routeUrl "https://x.com" ≠ Route.reddit ∧
    hasNocacheParam "https://x.com" = false ∧
    jsIncludes "https://x.com" "nocache=true" = false ∧
    envC2fb.cache ("Default:" ++ ("https://x.com" ++
      (if envC2fb.llmFilter then "-llm" else ""))) = some "cached page" ∧
    (processUrl envC2fb "https://x.com").defaultFetches = 1 ∧
    (processUrl envC2fb "https://x.com").result.md ≠ "cached page" := by
  decide
